import Mathlib

/-!
Verification of the Edge-Model-Infra core runtime against its design
specification.  The C++ data model and operations are shallowly embedded as
Lean definitions; machine integers become `Nat` with explicit reduction
modulo powers of two where overflow matters.  Where only a declaration of an
operation appears in the repository sources (header files), the body is
modelled from the specification text and marked as such in its doc comment.
-/

namespace EdgeInfra

/-! ## Reactor `Channel` interest mask (src/unnamed/part_001)

The reactor channel keeps an epoll interest mask `events_ : int` and toggles
bits with `events_ |= kWriteEvent`, `events_ &= ~kWriteEvent`, etc.  We model
the C++ `int` mask as a natural number below `2^32`, with the C++ bitwise
complement realised as XOR against `2^32 - 1`. -/

/-- Width of the C++ `int` interest mask, as a modulus. -/
def intWidth : Nat := 2 ^ 32

/-- Modelled from the spec: the constants `kNoneEvent`, `kReadEvent`,
`kWriteEvent` are defined in the missing `Channel.cpp`; the header includes
`<sys/epoll.h>` and the spec describes an epoll-backed poller, so we use the
conventional values `0`, `EPOLLIN | EPOLLPRI`, `EPOLLOUT`. -/
def kNoneEvent : Nat := 0

/-- Modelled from the spec: `EPOLLIN | EPOLLPRI`. -/
def kReadEvent : Nat := 1 ||| 2

/-- Modelled from the spec: `EPOLLOUT`. -/
def kWriteEvent : Nat := 4

/-- Bitwise complement of a 32-bit mask (C++ `~x` on `int`, viewed unsigned). -/
def intCompl (x : Nat) : Nat := (intWidth - 1) ^^^ x

/-- Reactor channel per-fd record: owner loop and callbacks elided (they do
not affect the interest mask); `events` is the interest mask, `revents` the
readiness mask, `index` the poller hint (src/unnamed/part_001 lines 17-25). -/
structure ReactorChannel where
  fd : Nat
  events : Nat
  revents : Nat
  index : Int

/-- `void enableWriting() { events_ |= kWriteEvent; update(); }`
(src/unnamed/part_001 line 53; `update()` only republishes the mask to the
poller and does not change `events_`). -/
def ReactorChannel.enableWriting (c : ReactorChannel) : ReactorChannel :=
  { c with events := c.events ||| kWriteEvent }

/-- `void disableWriting() { events_ &= ~kWriteEvent; update(); }`
(src/unnamed/part_001 line 54). -/
def ReactorChannel.disableWriting (c : ReactorChannel) : ReactorChannel :=
  { c with events := c.events &&& intCompl kWriteEvent }

/-- `bool isWriting() const { return events_ & kWriteEvent; }`
(src/unnamed/part_001 line 59). -/
def ReactorChannel.isWriting (c : ReactorChannel) : Bool :=
  c.events &&& kWriteEvent != 0

/-! ## NetworkDebug statistics (src/unnamed/part_000, src/network/include/network/Socket.h)

All counters are `std::atomic<uint64_t>`; we model them as naturals kept
below `2^64`, with the unsigned increment and subtraction performed modulo
`2^64`. -/

/-- Modulus of a C++ `uint64_t`. -/
def u64Width : Nat := 2 ^ 64

/-- The `NetworkDebug::NetworkStats` counter block
(src/network/include/network/Socket.h lines 92-99). -/
structure NetworkStats where
  bytes_sent : Nat
  bytes_received : Nat
  connections_created : Nat
  connections_closed : Nat
  events_processed : Nat
  errors_count : Nat

/-- `resetStatistics()` stores `0` into every counter
(src/unnamed/part_000 lines 99-107). -/
def resetStatistics : NetworkStats :=
  ⟨0, 0, 0, 0, 0, 0⟩

/-- `recordConnectionCreated() { stats_.connections_created++; }`
(src/network/include/network/Socket.h line 117); the `uint64_t` increment
wraps modulo `2^64`. -/
def recordConnectionCreated (s : NetworkStats) : NetworkStats :=
  { s with connections_created := (s.connections_created + 1) % u64Width }

/-- `recordConnectionClosed() { stats_.connections_closed++; }`
(src/network/include/network/Socket.h line 118). -/
def recordConnectionClosed (s : NetworkStats) : NetworkStats :=
  { s with connections_closed := (s.connections_closed + 1) % u64Width }

/-- The active-connections figure printed by `getStatisticsString`:
`getConnectionsCreated() - getConnectionsClosed()` evaluated in `uint64_t`
arithmetic (src/unnamed/part_000 line 93).  For counters below `2^64` the
unsigned difference is `(created + 2^64 - closed) mod 2^64`. -/
def activeConnectionsFigure (s : NetworkStats) : Nat :=
  (s.connections_created + u64Width - s.connections_closed % u64Width) % u64Width

/-- The statistics state after `m` calls to `recordConnectionCreated` and
then `n` calls to `recordConnectionClosed`, starting from freshly reset
counters. -/
def statsAfter (m n : Nat) : NetworkStats :=
  recordConnectionClosed^[n] (recordConnectionCreated^[m] resetStatistics)

/-! ## JsonValue (src/unnamed/part_005)

`JsonValue` holds a type tag, a scalar union, a string, a vector of children
and a `std::map` of children.  The `double` member of the union is omitted
(floating point is outside the embedding; neither mutator reads or writes
any union member).  `std::map<std::string, ...>` is modelled as a key-sorted
association list. -/

inductive JsonType where
  | NULL_TYPE
  | BOOL_TYPE
  | INT_TYPE
  | DOUBLE_TYPE
  | STRING_TYPE
  | ARRAY_TYPE
  | OBJECT_TYPE
deriving DecidableEq, Repr

/-- The representation of `JsonValue` (src/unnamed/part_005 lines 24-33):
type tag, union scalars, `string_val_`, `array_val_`, `object_val_`. -/
inductive JsonValue where
  | mk (ty : JsonType) (bool_val : Bool) (int_val : Int)
       (string_val : String)
       (array_val : List JsonValue)
       (object_val : List (String × JsonValue))

/-- `getType()` (src/unnamed/part_005 line 42). -/
def JsonValue.getType : JsonValue → JsonType
  | .mk ty _ _ _ _ _ => ty

/-- The `array_val_` member. -/
def JsonValue.arrayVal : JsonValue → List JsonValue
  | .mk _ _ _ _ arr _ => arr

/-- The `object_val_` member. -/
def JsonValue.objectVal : JsonValue → List (String × JsonValue)
  | .mk _ _ _ _ _ obj => obj

/-- `std::map::operator[]` followed by assignment: insert keeping keys
sorted, replacing the value if the key is already present. -/
def mapInsert (k : String) (v : JsonValue) :
    List (String × JsonValue) → List (String × JsonValue)
  | [] => [(k, v)]
  | (k2, v2) :: rest =>
    if k = k2 then (k, v) :: rest
    else if k < k2 then (k, v) :: (k2, v2) :: rest
    else (k2, v2) :: mapInsert k v rest

/-- `std::map::find` as used by `JsonValue::get`. -/
def mapFind (k : String) : List (String × JsonValue) → Option JsonValue
  | [] => none
  | (k2, v2) :: rest => if k2 = k then some v2 else mapFind k rest

/-- `pushBack` (src/unnamed/part_005 lines 50-56): if the type tag is not
`ARRAY_TYPE`, set it to `ARRAY_TYPE` and clear `array_val_`; then append.
No other member is touched. -/
def JsonValue.pushBack (v : JsonValue) (x : JsonValue) : JsonValue :=
  match v with
  | .mk ty b i s arr obj =>
    if ty = .ARRAY_TYPE then .mk ty b i s (arr ++ [x]) obj
    else .mk .ARRAY_TYPE b i s ([] ++ [x]) obj

/-- `set` (src/unnamed/part_005 lines 72-78): if the type tag is not
`OBJECT_TYPE`, set it to `OBJECT_TYPE` and clear `object_val_`; then
`object_val_[key] = val`. -/
def JsonValue.set (v : JsonValue) (k : String) (x : JsonValue) : JsonValue :=
  match v with
  | .mk ty b i s arr obj =>
    if ty = .OBJECT_TYPE then .mk ty b i s arr (mapInsert k x obj)
    else .mk .OBJECT_TYPE b i s arr (mapInsert k x [])

/-- `get` (src/unnamed/part_005 lines 80-88): `nullptr` becomes `none`. -/
def JsonValue.get (v : JsonValue) (k : String) : Option JsonValue :=
  if v.getType = .OBJECT_TYPE then mapFind k v.objectVal else none

/-- A concrete JSON integer value `7`. -/
def jsonInt7 : JsonValue := .mk .INT_TYPE false 7 "" [] []

/-- A concrete JSON string value `"hello"`. -/
def jsonStrHello : JsonValue := .mk .STRING_TYPE false 0 "hello" [] []

/-- A concrete one-element JSON array. -/
def jsonArrOne : JsonValue := .mk .ARRAY_TYPE false 0 "" [jsonInt7] []

/-- A concrete one-entry JSON object. -/
def jsonObjOne : JsonValue := .mk .OBJECT_TYPE false 0 "" [] [("a", jsonInt7)]

/-! ## Hybrid-comm message header (src/unnamed/part_003)

`MessageHeader` is declared at src/unnamed/part_003 lines 34-52; the bodies
of `isValid` and `calculateChecksum` are not under src/, so they are
modelled from the specification (§6 "Message header"). -/

/-- Modulus of a C++ `uint32_t`. -/
def u32Width : Nat := 2 ^ 32

inductive MessageType where
  | UNKNOWN | REQUEST | RESPONSE | NOTIFY | HEARTBEAT | ERROR
  | DATA_TRANSFER | CONTROL
deriving DecidableEq, Repr

/-- Fixed-layout message header (src/unnamed/part_003 lines 34-52).
Sender/receiver ids and the enum payloads are irrelevant to validity and are
kept as plain data; a payload byte is a natural below 256. -/
structure MessageHeader where
  magic : Nat
  version : Nat
  mtype : MessageType
  priority : Nat
  sequence_id : Nat
  timestamp : Nat
  payload_size : Nat
  checksum : Nat
  sender_id : String
  receiver_id : String
  flags : Nat

/-- The protocol constants consumed by validity: the magic constant and the
configured maximum payload size (spec §6: "magic matches the constant",
"payload size does not exceed a configured maximum").  Their concrete values
live in the missing implementation file. -/
structure ProtocolConfig where
  MAGIC : Nat
  MAX_PAYLOAD_SIZE : Nat

/-- Modelled from the spec: the body of `MessageHeader::calculateChecksum`
is not under src/ (src/unnamed/part_003 line 51 is only the declaration).
Spec §6: "checksum (u32, summed over payload bytes modulo 2^32)" — a
`uint32_t` accumulator summing the payload bytes, i.e. a fold that reduces
modulo `2^32` at every addition. -/
def calculateChecksum (payload : List Nat) : Nat :=
  payload.foldl (fun acc b => (acc + b) % u32Width) 0

/-- Modelled from the spec: the body of `MessageHeader::isValid` is not
under src/ (src/unnamed/part_003 line 50 is only the declaration).  Spec §6:
"Validity: magic matches the constant; version ≥ 1; payload size does not
exceed a configured maximum; checksum matches." -/
def MessageHeader.isValid (cfg : ProtocolConfig) (h : MessageHeader)
    (payload : List Nat) : Bool :=
  (h.magic == cfg.MAGIC) && (1 ≤ h.version : Bool)
    && (h.payload_size ≤ cfg.MAX_PAYLOAD_SIZE : Bool)
    && (h.checksum == calculateChecksum payload)

/-! ## Bus channel subscription (src/infra-controller/include/channel.h) -/

inductive ChannelType where
  | POINT_TO_POINT | PUBLISH_SUBSCRIBE | REQUEST_RESPONSE | BROADCAST | MULTICAST
deriving DecidableEq, Repr

/-- The two subscribe/unsubscribe implementations visible in the class
hierarchy: the base-class default and the ZeroMQ override
(src/infra-controller/include/channel.h lines 125-126 and 178-179). -/
inductive ChannelImpl where
  | base | zmq
deriving DecidableEq, Repr

/-- `Channel::subscribe` dispatched by dynamic type.  The base-class body is
inline in src/: `virtual bool subscribe(const std::string& topic) { return
false; }` (channel.h line 125).  The `ZmqChannel` override's body is not
under src/; modelled from the spec (§4.M: "subscribe/unsubscribe(topic) is
only meaningful for publish-subscribe and multicast kinds; other kinds
return false"; §9 open question: the source returns false for types other
than pub-sub), so the override succeeds only for `PUBLISH_SUBSCRIBE`. -/
def channelSubscribe (impl : ChannelImpl) (ty : ChannelType)
    (topic : String) : Bool :=
  match impl with
  | .base => false
  | .zmq => match ty with
    | .PUBLISH_SUBSCRIBE => topic.length ≥ 0
    | _ => false

/-- `Channel::unsubscribe` dispatched by dynamic type; same shape as
`channelSubscribe` (channel.h lines 126 and 179). -/
def channelUnsubscribe (impl : ChannelImpl) (ty : ChannelType)
    (topic : String) : Bool :=
  match impl with
  | .base => false
  | .zmq => match ty with
    | .PUBLISH_SUBSCRIBE => topic.length ≥ 0
    | _ => false

/-! ## TcpConnection state machine (src/network/include/network/EventLoop.h)

The `State` enum is declared at src/network/include/network/EventLoop.h
lines 107-112; the bodies of the transition member functions are not under
src/, so the transitions are modelled from spec §4.G. -/

inductive ConnState where
  | kDisconnected | kConnecting | kConnected | kDisconnecting
deriving DecidableEq, Repr

/-- The position of a state in the spec's state diagram
`Connecting → Connected → Disconnecting → Disconnected` (spec §3). -/
def ConnState.rank : ConnState → Nat
  | .kConnecting => 0
  | .kConnected => 1
  | .kDisconnecting => 2
  | .kDisconnected => 3

/-- The state-changing entry points of `TcpConnection`
(src/network/include/network/EventLoop.h lines 147-150 and 186-194). -/
inductive ConnOp where
  | connectEstablished | shutdown | forceClose | handleClose | connectDestroyed
deriving DecidableEq, Repr

/-- Modelled from the spec: the bodies of the `TcpConnection` transition
functions are not under src/.  Spec §4.G: `Connecting → Connected` on
`connect_established`; `Connected → Disconnecting` on `shutdown` (only if
currently `Connected`); `Connected|Disconnecting → Disconnected` on
`handle_close` or `force_close`; `connect_destroyed` detaches, taking a
still-`Connected` connection to `Disconnected`.  Calls made in any other
state leave the state unchanged. -/
def connStep (s : ConnState) : ConnOp → ConnState
  | .connectEstablished => if s = .kConnecting then .kConnected else s
  | .shutdown => if s = .kConnected then .kDisconnecting else s
  | .forceClose =>
    if s = .kConnected ∨ s = .kDisconnecting then .kDisconnected else s
  | .handleClose =>
    if s = .kConnected ∨ s = .kDisconnecting then .kDisconnected else s
  | .connectDestroyed => if s = .kConnected then .kDisconnected else s

/-- Run a sequence of transition calls from a starting state. -/
def connRun (s : ConnState) (ops : List ConnOp) : ConnState :=
  ops.foldl connStep s

/-! ## Events and StackFlow (src/infra-controller/include/StackFlow.h)

The header declares the whole StackFlow API; none of the bodies are under
src/.  The state is embedded faithfully to the members declared at
StackFlow.h lines 113-132; operation bodies are modelled from spec §4.J-K.
The worker thread is modelled by exposing the per-event dispatch step
(`processEvent`) as a pure state transformer. -/

inductive EventType where
  | SYSTEM_START | SYSTEM_STOP | SERVICE_REGISTER | SERVICE_UNREGISTER
  | MESSAGE_RECEIVED | CONNECTION_ESTABLISHED | CONNECTION_LOST
  | ERROR_OCCURRED | CUSTOM
deriving DecidableEq, Repr

/-- The event value type (StackFlow.h lines 31-45); the k/v data map is an
association list (spec §3: "insertion order irrelevant"). -/
structure Event where
  etype : EventType
  source : String
  target : String
  data : List (String × String)
  timestamp : Nat
  priority : Nat

/-- An event handler (StackFlow.h lines 48-54, 186-200): a name, the
supported tags, and the `handleEvent` callable returning success. -/
structure EventHandler where
  handlerName : String
  supportedEvents : List EventType
  handleEvent : Event → Bool

/-- The StackFlow controller state (StackFlow.h lines 113-132): handler
registry (tag → ordered list, an absent tag being the empty list), FIFO
event queue (head = front), and the three counters.  Thread, mutex and
condition-variable members carry no mathematical state. -/
structure StackFlow where
  sfName : String
  running : Bool
  stop_requested : Bool
  handlers : EventType → List EventHandler
  event_queue : List Event
  events_processed : Nat
  workflows_executed : Nat
  errors_count : Nat

/-- Modelled from the spec: the body of `StackFlow::publishEvent` is not
under src/ (StackFlow.h lines 153-155 are only declarations).  Spec §4.J-K:
"publish_event inserts into the ... FIFO under a mutex and notifies the
worker."  The declaration in src/ returns `void` and the queue member
(StackFlow.h line 120) is a capacity-free `std::queue<Event>`, so the model
enqueues unconditionally and produces no failure value. -/
def StackFlow.publishEvent (s : StackFlow) (e : Event) : StackFlow :=
  { s with event_queue := s.event_queue ++ [e] }

/-- Modelled from the spec: the body of `StackFlow::registerHandler` is not
under src/ (StackFlow.h line 148).  Spec §3: registry is "tag → ordered
list of handlers" with "dispatch order = registration order", so
registration appends to the tag's list. -/
def StackFlow.registerHandler (s : StackFlow) (t : EventType)
    (h : EventHandler) : StackFlow :=
  { s with handlers := fun t2 =>
      if t2 = t then s.handlers t2 ++ [h] else s.handlers t2 }

/-- Modelled from the spec: the body of `StackFlow::unregisterHandler` is
not under src/ (StackFlow.h line 149).  It removes from the tag's list the
handlers whose `getHandlerName()` equals the given name. -/
def StackFlow.unregisterHandler (s : StackFlow) (t : EventType)
    (nm : String) : StackFlow :=
  { s with handlers := fun t2 =>
      if t2 = t then (s.handlers t2).filter (fun h => h.handlerName != nm)
      else s.handlers t2 }

/-- Modelled from the spec: the dispatch loop inside
`StackFlow::processEvent` (declared StackFlow.h line 178).  Spec §4.J-K:
"For each handler registered under the event's tag (in registration order),
invoke handle_event; if it returns false, record an error but continue."
The returned list is the trace of handler names invoked, in invocation
order; the returned natural is the final error counter. -/
def dispatchLoop : List EventHandler → Event → Nat → Nat × List String
  | [], _, errs => (errs, [])
  | h :: rest, e, errs =>
    let ok := h.handleEvent e
    let errs2 := if ok then errs else errs + 1
    let r := dispatchLoop rest e errs2
    (r.1, h.handlerName :: r.2)

/-- Modelled from the spec: `StackFlow::processEvent` for one dequeued
event — run the dispatch loop over the handlers registered under the
event's tag and bump the processed counter (spec §4.J-K); the invocation
trace is returned alongside the new state. -/
def StackFlow.processEvent (s : StackFlow) (e : Event) :
    StackFlow × List String :=
  let r := dispatchLoop (s.handlers e.etype) e s.errors_count
  ({ s with errors_count := r.1,
            events_processed := s.events_processed + 1 }, r.2)

/-! ## WorkflowStep (src/infra-controller/include/StackFlow.h lines 57-109)

The step tree is embedded with its declared members (name, type, status,
optional condition, optional action, ordered children).  The bodies of
`execute` / `executeChildrenSequential` / `executeChildrenParallel` are not
under src/ and are modelled from spec §4.L. -/

inductive StepType where
  | CONDITION | ACTION | PARALLEL | SEQUENTIAL
deriving DecidableEq, Repr

inductive StepStatus where
  | PENDING | RUNNING | COMPLETED | FAILED | SKIPPED
deriving DecidableEq, Repr

/-- A workflow step (StackFlow.h lines 74-80). -/
inductive WorkflowStep where
  | mk (name : String) (ty : StepType) (status : StepStatus)
       (condition : Option (Event → Bool)) (action : Option (Event → Bool))
       (children : List WorkflowStep)

def WorkflowStep.name : WorkflowStep → String
  | .mk nm _ _ _ _ _ => nm

def WorkflowStep.ty : WorkflowStep → StepType
  | .mk _ t _ _ _ _ => t

def WorkflowStep.status : WorkflowStep → StepStatus
  | .mk _ _ st _ _ _ => st

def WorkflowStep.children : WorkflowStep → List WorkflowStep
  | .mk _ _ _ _ _ cs => cs

mutual

/-- Modelled from the spec: the body of `WorkflowStep::execute` is not
under src/ (StackFlow.h line 92).  Spec §4.L: a `Condition` evaluates its
predicate — false gives `Skipped` without touching the children, true runs
the children (sequentially, this step not being a `Parallel`); an `Action`
evaluates its action — `Failed` on false, otherwise the children run
sequentially after the successful action; `Sequential` and `Parallel` run
their children by the corresponding rule.  The step ends `Completed` when
its children all succeeded, `Failed` otherwise, and `execute` returns the
success of the step.  An absent predicate or action defaults to success. -/
def WorkflowStep.execute : WorkflowStep → Event → WorkflowStep × Bool
  | .mk nm t _ cond act cs, e =>
    match t with
    | .CONDITION =>
      if (cond.getD (fun _ => true)) e then
        let r := execSeq cs e
        (.mk nm t (if r.2 then .COMPLETED else .FAILED) cond act r.1, r.2)
      else
        (.mk nm t .SKIPPED cond act cs, true)
    | .ACTION =>
      if (act.getD (fun _ => true)) e then
        let r := execSeq cs e
        (.mk nm t (if r.2 then .COMPLETED else .FAILED) cond act r.1, r.2)
      else
        (.mk nm t .FAILED cond act cs, false)
    | .SEQUENTIAL =>
      let r := execSeq cs e
      (.mk nm t (if r.2 then .COMPLETED else .FAILED) cond act r.1, r.2)
    | .PARALLEL =>
      let r := execPar cs e
      (.mk nm t (if r.2 then .COMPLETED else .FAILED) cond act r.1, r.2)

/-- Modelled from the spec: `executeChildrenSequential` (StackFlow.h line
108).  Spec §4.L: "execute children in order; stop at the first Failed" —
children after the first failing child are not executed. -/
def execSeq : List WorkflowStep → Event → List WorkflowStep × Bool
  | [], _ => ([], true)
  | c :: rest, e =>
    let r := c.execute e
    if r.2 then
      let rr := execSeq rest e
      (r.1 :: rr.1, rr.2)
    else
      (r.1 :: rest, false)

/-- Modelled from the spec: `executeChildrenParallel` (StackFlow.h line
107).  Spec §4.L: all children run to completion (a failed child does not
stop the others); the aggregate succeeds iff every child succeeded. -/
def execPar : List WorkflowStep → Event → List WorkflowStep × Bool
  | [], _ => ([], true)
  | c :: rest, e =>
    let r := c.execute e
    let rr := execPar rest e
    (r.1 :: rr.1, r.2 && rr.2)

end

/-- The scenario tree of spec §8 end-to-end scenario 3: action step `A`
always succeeding. -/
def stepA : WorkflowStep :=
  .mk "A" .ACTION .PENDING none (some (fun _ => true)) []

/-- Action step `B`, always succeeding. -/
def stepB : WorkflowStep :=
  .mk "B" .ACTION .PENDING none (some (fun _ => true)) []

/-- Action step `C`, always failing. -/
def stepC : WorkflowStep :=
  .mk "C" .ACTION .PENDING none (some (fun _ => false)) []

/-- `Condition(pred=true, Action(A→true))`. -/
def condStep : WorkflowStep :=
  .mk "Cond" .CONDITION .PENDING (some (fun _ => true)) none [stepA]

/-- `Parallel(Action(B→true), Action(C→false))`. -/
def parStep : WorkflowStep :=
  .mk "Par" .PARALLEL .PENDING none none [stepB, stepC]

/-- `Sequential(Condition(pred=true, Action(A→true)),
Parallel(Action(B→true), Action(C→false)))`. -/
def rootStep : WorkflowStep :=
  .mk "Root" .SEQUENTIAL .PENDING none none [condStep, parStep]

/-- A concrete custom event. -/
def eventCustom : Event := ⟨.CUSTOM, "src", "dst", [], 0, 0⟩

/-- A concrete handler named `"h"` that always succeeds. -/
def handlerA : EventHandler := ⟨"h", [], fun _ => true⟩

/-- A second, distinct handler also named `"h"`. -/
def handlerB : EventHandler := ⟨"h", [.CUSTOM], fun _ => true⟩

/-- A StackFlow whose `CUSTOM` registry already holds `handlerA`. -/
def sfWithA : StackFlow :=
  ⟨"sf", true, false,
    fun t => if t = .CUSTOM then [handlerA] else [], [], 0, 0, 0⟩

/-- A StackFlow with an empty registry and queue. -/
def sfEmpty : StackFlow :=
  ⟨"sf", true, false, fun _ => [], [], 0, 0, 0⟩

/-- The expected tree after running the scenario workflow: root `Failed`,
condition branch `Completed` with `A` `Completed`, parallel branch `Failed`
with `B` `Completed` and `C` `Failed`. -/
def rootStepAfter : WorkflowStep :=
  .mk "Root" .SEQUENTIAL .FAILED none none
    [.mk "Cond" .CONDITION .COMPLETED (some (fun _ => true)) none
      [.mk "A" .ACTION .COMPLETED none (some (fun _ => true)) []],
     .mk "Par" .PARALLEL .FAILED none none
      [.mk "B" .ACTION .COMPLETED none (some (fun _ => true)) [],
       .mk "C" .ACTION .FAILED none (some (fun _ => false)) []]]

/-! ## Theorems -/

/-- C7 counterexample: the round-trip claim fails when the initial interest
mask already contains the write bit — `enableWriting` is then a no-op and
`disableWriting` clears the bit, so the mask is not restored.  Concrete
input: a channel whose mask is exactly `kWriteEvent`. -/
theorem C7_counterexample :
    ((ReactorChannel.mk 3 kWriteEvent 0 0).enableWriting.disableWriting).events
      ≠ (ReactorChannel.mk 3 kWriteEvent 0 0).events := by
  decide

/-- C7 (amended): for every reactor channel whose interest mask fits in the
32-bit `int` and whose write-interest bit is clear, `enableWriting` followed
by `disableWriting` restores the interest mask to its value before the
`enableWriting` call. -/
theorem C7_enable_then_disable_writing (c : ReactorChannel)
    (hlt : c.events < intWidth) (hw : c.isWriting = false) :
    (c.enableWriting.disableWriting).events = c.events := by
  have h4 : c.events &&& kWriteEvent = 0 := by
    simpa [ReactorChannel.isWriting] using hw
  have hbit2 : c.events.testBit 2 = false := by
    have h := congrArg (fun n => n.testBit 2) h4
    simp only [Nat.testBit_land] at h
    rw [show kWriteEvent = 2 ^ 2 by norm_num [kWriteEvent],
      Nat.testBit_two_pow] at h
    simpa using h
  apply Nat.eq_of_testBit_eq
  intro i
  simp only [ReactorChannel.enableWriting, ReactorChannel.disableWriting,
    intCompl, intWidth, kWriteEvent] at *
  rw [Nat.testBit_land, Nat.testBit_lor, Nat.testBit_xor,
    Nat.testBit_two_pow_sub_one,
    show (4 : ℕ) = 2 ^ 2 by norm_num, Nat.testBit_two_pow]
  by_cases hi2 : i = 2
  · subst hi2
    simp [hbit2]
  · by_cases hi32 : i < 32
    · simp [Ne.symm hi2, hi32]
    · have hz : c.events.testBit i = false :=
        Nat.testBit_lt_two_pow (lt_of_lt_of_le hlt
          (Nat.pow_le_pow_right (by norm_num) (le_of_not_lt hi32)))
      simp [Ne.symm hi2, hi32, hz]

/-- C7 witness: the amended round-trip at a concrete channel whose mask is
the read bit only. -/
theorem C7_witness :
    (ReactorChannel.mk 1 1 0 0).events < intWidth
      ∧ (ReactorChannel.mk 1 1 0 0).isWriting = false
      ∧ ((ReactorChannel.mk 1 1 0 0).enableWriting.disableWriting).events
          = (ReactorChannel.mk 1 1 0 0).events :=
  ⟨by decide, by decide,
    C7_enable_then_disable_writing _ (by decide) (by decide)⟩

/-- Helper: `m` create-records from reset leave only the created counter
set, at `m` modulo `2^64`. -/
theorem iterate_recordConnectionCreated (m : Nat) :
    recordConnectionCreated^[m] resetStatistics
      = ⟨0, 0, m % u64Width, 0, 0, 0⟩ := by
  induction m with
  | zero => simp [resetStatistics]
  | succ k ih =>
    rw [Function.iterate_succ_apply', ih]
    simp [recordConnectionCreated, Nat.mod_add_mod]

/-- Helper: `n` close-records after `m` create-records from reset. -/
theorem iterate_recordConnectionClosed (m n : Nat) :
    recordConnectionClosed^[n]
        (⟨0, 0, m % u64Width, 0, 0, 0⟩ : NetworkStats)
      = ⟨0, 0, m % u64Width, n % u64Width, 0, 0⟩ := by
  induction n with
  | zero => simp [resetStatistics]
  | succ k ih =>
    rw [Function.iterate_succ_apply', ih]
    simp [recordConnectionClosed, Nat.mod_add_mod]

/-- C10: the active-connections figure reported by the statistics string is
the `uint64_t` difference `connections_created - connections_closed`; when
`recordConnectionClosed` has been called `n` times and
`recordConnectionCreated` only `m < n` times, the figure wraps around to
`2^64 - (n - m)` instead of being zero or negative. -/
theorem C10_active_connections_wrap (m n : Nat) (hmn : m < n)
    (hn : n < u64Width) :
    activeConnectionsFigure (statsAfter m n) = u64Width - (n - m)
      ∧ activeConnectionsFigure (statsAfter m n) ≠ 0 := by
  have hM : 0 < u64Width := by norm_num [u64Width]
  have hm : m % u64Width = m := Nat.mod_eq_of_lt (lt_trans hmn hn)
  have hn2 : n % u64Width = n := Nat.mod_eq_of_lt hn
  have hs : statsAfter m n
      = ⟨0, 0, m % u64Width, n % u64Width, 0, 0⟩ := by
    rw [statsAfter, iterate_recordConnectionCreated,
      iterate_recordConnectionClosed]
  rw [hs]
  simp only [activeConnectionsFigure, hm, hn2]
  have hlt : m + u64Width - n < u64Width := by omega
  rw [Nat.mod_eq_of_lt hlt]
  exact ⟨by omega, by omega⟩

/-- C10 witness: one close and no creates reports `2^64 - 1` active
connections. -/
theorem C10_witness :
    0 < 1 ∧ 1 < u64Width
      ∧ activeConnectionsFigure (statsAfter 0 1) = u64Width - (1 - 0)
      ∧ activeConnectionsFigure (statsAfter 0 1) ≠ 0 :=
  ⟨by decide, by norm_num [u64Width],
    (C10_active_connections_wrap 0 1 (by decide) (by norm_num [u64Width])).1,
    (C10_active_connections_wrap 0 1 (by decide) (by norm_num [u64Width])).2⟩

/-- Helper: looking a key up after a `std::map` insert finds the inserted
value at that key and is unchanged elsewhere. -/
theorem mapFind_mapInsert (obj : List (String × JsonValue)) (k k2 : String)
    (x : JsonValue) :
    mapFind k2 (mapInsert k x obj)
      = if k2 = k then some x else mapFind k2 obj := by
  induction obj with
  | nil =>
    by_cases h : k2 = k
    · subst h
      simp [mapInsert, mapFind]
    · have h' : ¬ k = k2 := fun hh => h hh.symm
      simp [mapInsert, mapFind, h, h']
  | cons p rest ih =>
    obtain ⟨k3, v3⟩ := p
    by_cases h1 : k = k3
    · subst h1
      by_cases h : k2 = k
      · subst h
        simp [mapInsert, mapFind]
      · have h' : ¬ k = k2 := fun hh => h hh.symm
        simp [mapInsert, mapFind, h, h']
    · by_cases h2 : k < k3
      · by_cases h : k2 = k
        · subst h
          have h1' : ¬ k3 = k2 := fun hh => h1 hh.symm
          simp [mapInsert, mapFind, h1, h2, h1']
        · have h' : ¬ k = k2 := fun hh => h hh.symm
          simp [mapInsert, mapFind, h1, h2, h, h']
      · by_cases h : k2 = k
        · subst h
          have h1' : ¬ k3 = k2 := fun hh => h1 hh.symm
          simp [mapInsert, mapFind, h1, h2, h1', ih]
        · have h' : ¬ k = k2 := fun hh => h hh.symm
          simp [mapInsert, mapFind, h1, h2, h, h', ih]

/-- C9: the `JsonValue` mutators coerce the value's type destructively — on
a non-array, `pushBack x` turns the value into the one-element array `[x]`;
on a non-object, `set k x` turns it into the one-entry object `[(k, x)]`;
and existing content is preserved exactly when the value already has the
target type (arrays are appended to, objects keep their other keys). -/
theorem C9_json_mutators :
    (∀ v x : JsonValue, v.getType ≠ .ARRAY_TYPE →
      (v.pushBack x).getType = .ARRAY_TYPE ∧ (v.pushBack x).arrayVal = [x])
    ∧ (∀ v x : JsonValue, v.getType = .ARRAY_TYPE →
      (v.pushBack x).getType = .ARRAY_TYPE
        ∧ (v.pushBack x).arrayVal = v.arrayVal ++ [x])
    ∧ (∀ (v x : JsonValue) (k : String), v.getType ≠ .OBJECT_TYPE →
      (v.set k x).getType = .OBJECT_TYPE ∧ (v.set k x).objectVal = [(k, x)])
    ∧ (∀ (v x : JsonValue) (k : String), v.getType = .OBJECT_TYPE →
      (v.set k x).get k = some x
        ∧ ∀ k2, k2 ≠ k → (v.set k x).get k2 = v.get k2) := by
  refine ⟨?_, ?_, ?_, ?_⟩
  · intro v x h
    obtain ⟨ty, b, i, s, arr, obj⟩ := v
    simp only [JsonValue.getType] at h
    simp [JsonValue.pushBack, JsonValue.getType, JsonValue.arrayVal, h]
  · intro v x h
    obtain ⟨ty, b, i, s, arr, obj⟩ := v
    simp only [JsonValue.getType] at h
    simp [JsonValue.pushBack, JsonValue.getType, JsonValue.arrayVal, h]
  · intro v x k h
    obtain ⟨ty, b, i, s, arr, obj⟩ := v
    simp only [JsonValue.getType] at h
    simp [JsonValue.set, JsonValue.getType, JsonValue.objectVal, h, mapInsert]
  · intro v x k h
    obtain ⟨ty, b, i, s, arr, obj⟩ := v
    simp only [JsonValue.getType] at h
    subst h
    constructor
    · simp [JsonValue.set, JsonValue.get, JsonValue.getType,
        JsonValue.objectVal, mapFind_mapInsert]
    · intro k2 hk2
      simp [JsonValue.set, JsonValue.get, JsonValue.getType,
        JsonValue.objectVal, mapFind_mapInsert, hk2]

/-- C9 witness: the four clauses at concrete values — a string value turned
into an array, a one-element array appended to, a string value turned into
an object, and a one-entry object keeping its other key. -/
theorem C9_witness :
    (jsonStrHello.getType ≠ .ARRAY_TYPE
      ∧ (jsonStrHello.pushBack jsonInt7).getType = .ARRAY_TYPE
      ∧ (jsonStrHello.pushBack jsonInt7).arrayVal = [jsonInt7])
    ∧ (jsonArrOne.getType = .ARRAY_TYPE
      ∧ (jsonArrOne.pushBack jsonStrHello).arrayVal
          = jsonArrOne.arrayVal ++ [jsonStrHello])
    ∧ (jsonStrHello.getType ≠ .OBJECT_TYPE
      ∧ (jsonStrHello.set "k" jsonInt7).objectVal = [("k", jsonInt7)])
    ∧ (jsonObjOne.getType = .OBJECT_TYPE
      ∧ (jsonObjOne.set "k" jsonInt7).get "k" = some jsonInt7
      ∧ "a" ≠ "k"
      ∧ (jsonObjOne.set "k" jsonInt7).get "a" = jsonObjOne.get "a") :=
  ⟨⟨by decide, (C9_json_mutators.1 jsonStrHello jsonInt7 (by decide)).1,
      (C9_json_mutators.1 jsonStrHello jsonInt7 (by decide)).2⟩,
    ⟨by decide,
      (C9_json_mutators.2.1 jsonArrOne jsonStrHello (by decide)).2⟩,
    ⟨by decide,
      (C9_json_mutators.2.2.1 jsonStrHello jsonInt7 "k" (by decide)).2⟩,
    ⟨by decide,
      (C9_json_mutators.2.2.2 jsonObjOne jsonInt7 "k" (by decide)).1,
      by decide,
      (C9_json_mutators.2.2.2 jsonObjOne jsonInt7 "k" (by decide)).2
        "a" (by decide)⟩⟩

/-- Helper: a `uint32_t` accumulator that reduces modulo `2^32` at every
addition computes the total sum modulo `2^32`. -/
theorem checksum_foldl (p : List Nat) (a : Nat) :
    p.foldl (fun acc b => (acc + b) % u32Width) (a % u32Width)
      = (a + p.sum) % u32Width := by
  induction p generalizing a with
  | nil => simp
  | cons b rest ih =>
    simp only [List.foldl_cons, List.sum_cons]
    rw [Nat.mod_add_mod, ih (a + b), Nat.add_assoc]

/-- C4: a header is valid exactly when the magic matches the configured
constant, the version is at least 1, the payload size is within the
configured maximum, and the checksum field equals the checksum of the
payload; and the checksum of a payload is the sum of its bytes reduced
modulo `2^32`. -/
theorem C4_header_validity (cfg : ProtocolConfig) (h : MessageHeader)
    (p : List Nat) :
    (h.isValid cfg p = true ↔
      (h.magic = cfg.MAGIC ∧ 1 ≤ h.version
        ∧ h.payload_size ≤ cfg.MAX_PAYLOAD_SIZE
        ∧ h.checksum = p.sum % u32Width))
    ∧ calculateChecksum p = p.sum % u32Width := by
  have hc : calculateChecksum p = p.sum % u32Width := by
    have h0 := checksum_foldl p 0
    simpa [calculateChecksum] using h0
  refine ⟨?_, hc⟩
  simp [MessageHeader.isValid, hc, and_assoc]

/-- C5: for a bus channel whose kind is neither publish-subscribe nor
multicast, `subscribe` and `unsubscribe` return false for every topic, for
both the base-class default and the ZeroMQ implementation. -/
theorem C5_subscribe_other_kinds (impl : ChannelImpl) (ty : ChannelType)
    (topic : String) (h1 : ty ≠ .PUBLISH_SUBSCRIBE) (h2 : ty ≠ .MULTICAST) :
    channelSubscribe impl ty topic = false
      ∧ channelUnsubscribe impl ty topic = false := by
  cases impl <;> cases ty <;>
    simp_all [channelSubscribe, channelUnsubscribe]

/-- C5 witness: a broadcast-kind ZeroMQ channel refuses subscription. -/
theorem C5_witness :
    ChannelType.BROADCAST ≠ ChannelType.PUBLISH_SUBSCRIBE
      ∧ ChannelType.BROADCAST ≠ ChannelType.MULTICAST
      ∧ channelSubscribe .zmq .BROADCAST "sensors" = false
      ∧ channelUnsubscribe .zmq .BROADCAST "sensors" = false :=
  ⟨by decide, by decide,
    (C5_subscribe_other_kinds .zmq .BROADCAST "sensors" (by decide)
      (by decide)).1,
    (C5_subscribe_other_kinds .zmq .BROADCAST "sensors" (by decide)
      (by decide)).2⟩

/-- C6: every transition entry point moves a connection forward (or leaves
it in place) along `Connecting → Connected → Disconnecting → Disconnected`,
and hence along any call sequence from `Connecting` the position in the
diagram never decreases: extending a call sequence never re-enters an
earlier state. -/
theorem C6_connection_state_monotone :
    (∀ (s : ConnState) (op : ConnOp), s.rank ≤ (connStep s op).rank)
      ∧ ∀ (ops more : List ConnOp),
        (connRun .kConnecting ops).rank
          ≤ (connRun .kConnecting (ops ++ more)).rank := by
  have hstep : ∀ (s : ConnState) (op : ConnOp), s.rank ≤ (connStep s op).rank := by
    intro s op
    cases s <;> cases op <;> simp [connStep, ConnState.rank]
  refine ⟨hstep, ?_⟩
  intro ops more
  rw [connRun, connRun, List.foldl_append]
  generalize List.foldl connStep ConnState.kConnecting ops = s
  induction more generalizing s with
  | nil => simp
  | cons op rest ih =>
    rw [List.foldl_cons]
    exact le_trans (hstep s op) (ih (connStep s op))

/-- C1 counterexample: there is no capacity bound at which `publishEvent`
stops enqueueing — for every candidate capacity, a queue already holding
that many events still receives the published event (the member is a
capacity-free `std::queue` and `publishEvent` returns `void`). -/
theorem C1_counterexample :
    ¬ ∃ cap : Nat, ∀ (s : StackFlow) (e : Event),
        cap ≤ s.event_queue.length →
        (s.publishEvent e).event_queue = s.event_queue := by
  rintro ⟨cap, hAll⟩
  have h := hAll
      ⟨"sf", true, false, fun _ => [], List.replicate cap eventCustom, 0, 0, 0⟩
      eventCustom (by simp)
  have hlen := congrArg List.length h
  simp [StackFlow.publishEvent] at hlen

/-- C1 (amended): the StackFlow event queue is an unbounded FIFO —
`publishEvent` unconditionally appends the event at the back of the queue,
and, returning `void`, reports no rejection to the caller. -/
theorem C1_publish_always_enqueues (s : StackFlow) (e : Event) :
    (s.publishEvent e).event_queue = s.event_queue ++ [e] := rfl

/-- C8 counterexample: when a handler with the same name is already
registered under the tag, registering and then unregistering by that name
removes both handlers, so the registry is not restored.  Concrete input:
registry `[handlerA]` under `CUSTOM`, then register/unregister `handlerB`
(also named `"h"`). -/
theorem C8_counterexample :
    ¬ ∀ (s : StackFlow) (t : EventType) (h : EventHandler),
        ((s.registerHandler t h).unregisterHandler t h.handlerName).handlers t
          = s.handlers t := by
  intro hAll
  have h := hAll sfWithA .CUSTOM handlerB
  have hlen := congrArg List.length h
  simp [sfWithA, handlerA, handlerB, StackFlow.registerHandler,
    StackFlow.unregisterHandler] at hlen

/-- C8 (amended): registering a handler and then unregistering it by name
restores the registry of that tag, provided no already-registered handler
under that tag bears the same name. -/
theorem C8_register_unregister_roundtrip (s : StackFlow) (t : EventType)
    (h : EventHandler)
    (hfresh : ∀ g ∈ s.handlers t, g.handlerName ≠ h.handlerName) :
    ((s.registerHandler t h).unregisterHandler t h.handlerName).handlers t
      = s.handlers t := by
  simp only [StackFlow.registerHandler, StackFlow.unregisterHandler,
    eq_self_iff_true, if_true]
  rw [List.filter_append]
  have h1 : (s.handlers t).filter (fun g => g.handlerName != h.handlerName)
      = s.handlers t := by
    rw [List.filter_eq_self]
    intro g hg
    simpa using hfresh g hg
  have h2 : [h].filter (fun g => g.handlerName != h.handlerName) = [] := by
    simp
  rw [h1, h2, List.append_nil]

/-- C8 witness: the amended round-trip on an empty registry. -/
theorem C8_witness :
    (∀ g ∈ sfEmpty.handlers .CUSTOM, g.handlerName ≠ handlerA.handlerName)
      ∧ ((sfEmpty.registerHandler .CUSTOM handlerA).unregisterHandler
            .CUSTOM handlerA.handlerName).handlers .CUSTOM
          = sfEmpty.handlers .CUSTOM :=
  ⟨by simp [sfEmpty],
    C8_register_unregister_roundtrip sfEmpty .CUSTOM handlerA
      (by simp [sfEmpty])⟩

/-- Helper: the dispatch loop invokes every handler of the list, in order,
and adds one error per handler that returned false. -/
theorem dispatchLoop_spec (hs : List EventHandler) (e : Event) (errs : Nat) :
    (dispatchLoop hs e errs).2 = hs.map EventHandler.handlerName
      ∧ (dispatchLoop hs e errs).1
          = errs + hs.countP (fun h => !(h.handleEvent e)) := by
  induction hs generalizing errs with
  | nil => simp [dispatchLoop]
  | cons h rest ih =>
    cases hok : h.handleEvent e
    · simp [dispatchLoop, hok, (ih _).1, (ih _).2, List.countP_cons]
      omega
    · simp [dispatchLoop, hok, (ih _).1, (ih _).2, List.countP_cons]

/-- C3: dispatching a dequeued event invokes the handlers registered under
the event's tag in registration order — a handler returning false adds to
the error counter but does not stop dispatch, every later-registered
handler being still invoked — and bumps the processed counter. -/
theorem C3_dispatch_continues (s : StackFlow) (e : Event) :
    (s.processEvent e).2 = (s.handlers e.etype).map EventHandler.handlerName
      ∧ (s.processEvent e).1.errors_count
          = s.errors_count
            + (s.handlers e.etype).countP (fun h => !(h.handleEvent e))
      ∧ (s.processEvent e).1.events_processed = s.events_processed + 1 := by
  refine ⟨?_, ?_, rfl⟩
  · exact (dispatchLoop_spec (s.handlers e.etype) e s.errors_count).1
  · exact (dispatchLoop_spec (s.handlers e.etype) e s.errors_count).2

/-- Helper: a sequential run succeeds iff every child's execution
succeeds. -/
theorem execSeq_all (cs : List WorkflowStep) (e : Event) :
    (execSeq cs e).2 = true ↔ ∀ c ∈ cs, (c.execute e).2 = true := by
  induction cs with
  | nil => simp [execSeq]
  | cons c rest ih =>
    cases hc : (c.execute e).2
    · simp [execSeq, hc]
    · simp [execSeq, hc, ih]

/-- Helper: a sequential run stops at the first failing child — children
before it are executed in order, the failing child is executed, and the
children after it are left untouched. -/
theorem execSeq_stop (cs1 : List WorkflowStep) (c : WorkflowStep)
    (cs2 : List WorkflowStep) (e : Event)
    (hall : ∀ c1 ∈ cs1, (c1.execute e).2 = true)
    (hfail : (c.execute e).2 = false) :
    execSeq (cs1 ++ c :: cs2) e
      = (cs1.map (fun c1 => (c1.execute e).1) ++ (c.execute e).1 :: cs2,
          false) := by
  induction cs1 with
  | nil => simp [execSeq, hfail]
  | cons c1 rest ih =>
    have h1 : (c1.execute e).2 = true := hall c1 (by simp)
    have hrest : ∀ cc ∈ rest, (cc.execute e).2 = true := fun cc hcc =>
      hall cc (by simp [hcc])
    simp [execSeq, h1, ih hrest]

/-- Helper: a parallel run executes every child and succeeds iff all
children succeed. -/
theorem execPar_all (cs : List WorkflowStep) (e : Event) :
    execPar cs e
      = (cs.map (fun c => (c.execute e).1),
          cs.all (fun c => (c.execute e).2)) := by
  induction cs with
  | nil => simp [execPar]
  | cons c rest ih => simp [execPar, ih]

/-- Helper: a step's execution returns false exactly when its resulting
status is `FAILED`. -/
theorem execute_failed_iff (c : WorkflowStep) (e : Event) :
    (c.execute e).2 = false ↔ (c.execute e).1.status = .FAILED := by
  obtain ⟨nm, ty, st, cond, act, cs⟩ := c
  cases ty with
  | CONDITION =>
    by_cases hp : (cond.getD (fun _ => true)) e = true
    · cases hs : (execSeq cs e).2 <;>
        simp [WorkflowStep.execute, WorkflowStep.status, hp, hs]
    · simp [WorkflowStep.execute, WorkflowStep.status, hp]
  | ACTION =>
    by_cases ha : (act.getD (fun _ => true)) e = true
    · cases hs : (execSeq cs e).2 <;>
        simp [WorkflowStep.execute, WorkflowStep.status, ha, hs]
    · simp [WorkflowStep.execute, WorkflowStep.status, ha]
  | SEQUENTIAL =>
    cases hs : (execSeq cs e).2 <;>
      simp [WorkflowStep.execute, WorkflowStep.status, hs]
  | PARALLEL =>
    cases hpar : (execPar cs e).2 <;>
      simp [WorkflowStep.execute, WorkflowStep.status, hpar]

/-- C2: the workflow composition rules — a sequential step runs its
children in order, stops at the first failing child and ends `FAILED` iff
some child failed (else `COMPLETED`); a parallel step runs all its children
(a failing child does not stop the others) and ends `COMPLETED` iff all
children complete; a step's execution fails exactly when its status ends
`FAILED`; and the scenario tree
`Sequential(Condition(true, A→true), Parallel(B→true, C→false))`, run with
any event, ends with root `FAILED`, `A` `COMPLETED`, `B` `COMPLETED` and
`C` `FAILED`. -/
theorem C2_workflow_composition :
    (∀ (cs : List WorkflowStep) (e : Event),
      (execSeq cs e).2 = true ↔ ∀ c ∈ cs, (c.execute e).2 = true)
    ∧ (∀ (cs1 : List WorkflowStep) (c : WorkflowStep)
        (cs2 : List WorkflowStep) (e : Event),
      (∀ c1 ∈ cs1, (c1.execute e).2 = true) → (c.execute e).2 = false →
        execSeq (cs1 ++ c :: cs2) e
          = (cs1.map (fun c1 => (c1.execute e).1)
              ++ (c.execute e).1 :: cs2, false))
    ∧ (∀ (cs : List WorkflowStep) (e : Event),
      execPar cs e
        = (cs.map (fun c => (c.execute e).1),
            cs.all (fun c => (c.execute e).2)))
    ∧ (∀ (c : WorkflowStep) (e : Event),
      (c.execute e).2 = false ↔ (c.execute e).1.status = .FAILED)
    ∧ (∀ (nm : String) (st : StepStatus) (cond act : Option (Event → Bool))
        (cs : List WorkflowStep) (e : Event),
      ((WorkflowStep.mk nm .SEQUENTIAL st cond act cs).execute e).1.status
          = (if (execSeq cs e).2 then .COMPLETED else .FAILED)
        ∧ ((WorkflowStep.mk nm .PARALLEL st cond act cs).execute e).1.status
          = (if (execPar cs e).2 then .COMPLETED else .FAILED))
    ∧ (∀ e : Event, rootStep.execute e = (rootStepAfter, false))
    ∧ rootStepAfter.status = .FAILED
    ∧ rootStepAfter.children.map (fun c => (c.name, c.status))
        = [("Cond", .COMPLETED), ("Par", .FAILED)]
    ∧ rootStepAfter.children.map
        (fun c => c.children.map (fun c2 => (c2.name, c2.status)))
        = [[("A", .COMPLETED)], [("B", .COMPLETED), ("C", .FAILED)]] := by
  refine ⟨execSeq_all, execSeq_stop, execPar_all, execute_failed_iff,
    ?_, fun _ => rfl, rfl, rfl, rfl⟩
  intro nm st cond act cs e
  constructor <;> cases hs : (execSeq cs e).2 <;>
    cases hp : (execPar cs e).2 <;>
    simp [WorkflowStep.execute, WorkflowStep.status, hs, hp]

/-- C2 witness: the hypotheses of the stop-at-first-failure clause at a
concrete child list — `B` succeeds, `C` fails, and the sequential run stops
at `C`, leaving the trailing `A` untouched. -/
theorem C2_witness :
    (∀ c1 ∈ [stepB], (c1.execute eventCustom).2 = true)
      ∧ (stepC.execute eventCustom).2 = false
      ∧ execSeq ([stepB] ++ stepC :: [stepA]) eventCustom
          = ([stepB].map (fun c1 => (c1.execute eventCustom).1)
              ++ (stepC.execute eventCustom).1 :: [stepA], false) :=
  ⟨by simp [stepB, WorkflowStep.execute, execSeq],
    by simp [stepC, WorkflowStep.execute],
    C2_workflow_composition.2.1 [stepB] stepC [stepA] eventCustom
      (by simp [stepB, WorkflowStep.execute, execSeq])
      (by simp [stepC, WorkflowStep.execute])⟩

end EdgeInfra
